import Mathlib

/-!
Shallow embedding of the swap-and-points settlement engine of the
peer-to-peer clothing exchange marketplace.

The embedding translates, from the JavaScript source:
  * the `User` ledger methods `addPoints` / `spendPoints` /
    `incrementSwapsCompleted` (backend/models/User.js),
  * the `Item` method `markAsSwapped` and moderation transitions
    (backend/models/Item.js),
  * the `SwapRequest` lifecycle methods `accept` / `reject` / `complete` /
    `cancel` and the `pre('save')` validation hook
    (backend/models/SwapRequest.js),
  * the Express route handlers POST /api/swaps, PUT /api/swaps/:id/accept,
    /reject, /complete, /cancel (backend/routes/swaps.js).

Modelling conventions:
  * JavaScript numbers used as point amounts are modelled as `Int`
    (all arithmetic in the settlement engine is integer arithmetic).
  * Mongoose documents are records; the persistent store is `DB`, three
    association lists keyed by numeric ids standing for ObjectIds.
  * `document.save()` runs the schema validators (mongoose default
    `validateBeforeSave`); the declared validators on modelled fields are
    `min: 0` on `User.points`, `min: 1, max: 1000` on `Item.points`,
    `min: 0` on `SwapRequest.offeredPoints` / `transferAmount`, plus the
    `pre('save')` hook of SwapRequest.  A failing save throws, modelled as
    `Except.error`.
  * Every state-changing operation returns `Except (SwapError × DB) DB`:
    a thrown error carries the store as persisted so far, so partial
    persistence (saves performed before a later throw) is modelled
    faithfully.
  * Informational string fields (message, responseMessage, reason,
    meeting data) and timestamps other than `createdAt` are omitted:
    no modelled control flow reads them.  `createdAt` is kept (epoch
    milliseconds) because the `isExpired` virtual compares it with
    `Date.now() - 7*24*60*60*1000`.
  * Error kinds follow the spec's taxonomy where the source only has
    message strings: 'Item is not available for swapping' and the like
    are the InvalidSwapRequest family, 'no longer pending' /
    'must be accepted' / 'cannot be cancelled' are InvalidTransition,
    'Insufficient points' is InsufficientFunds.
-/

namespace Settlement

/-- Status enum of the Item schema: pending, available, swapped, removed. -/
inductive ItemStatus where
  | pending
  | available
  | swapped
  | removed
deriving DecidableEq, Repr

/-- Status enum of the SwapRequest schema. -/
inductive SwapStatus where
  | pending
  | accepted
  | rejected
  | completed
  | cancelled
deriving DecidableEq, Repr

/-- SwapType enum of the SwapRequest schema: direct or points. -/
inductive SwapType where
  | direct
  | points
deriving DecidableEq, Repr

/-- Error kinds of the settlement engine, mapped from the source's thrown
errors and 4xx responses following the spec's error taxonomy. -/
inductive SwapError where
  | validationErrors
  | notFound
  | itemNotAvailable
  | selfSwap
  | directNeedsItem
  | pointsNeedsPoints
  | insufficientFunds
  | offeredItemNotOwned
  | offeredItemNotAvailable
  | duplicateRequest
  | notAuthorized
  | invalidTransition
  | invalidSwapRequest
  | userValidation
  | itemValidation
  | swapValidation
deriving DecidableEq, Repr

/-- Errors the spec's taxonomy classifies as `InvalidSwapRequest`:
structural invariant violations (missing offer, self-swap, item not
available, offered item not owned or not available). -/
def SwapError.isInvalidSwapRequestKind : SwapError → Bool
  | .itemNotAvailable => true
  | .selfSwap => true
  | .directNeedsItem => true
  | .pointsNeedsPoints => true
  | .offeredItemNotOwned => true
  | .offeredItemNotAvailable => true
  | .invalidSwapRequest => true
  | _ => false

/-- User document, restricted to the fields the settlement engine reads or
writes.  The `stats` subdocument is flattened. -/
structure User where
  id : Nat
  points : Int
  totalPointsEarned : Int
  totalPointsSpent : Int
  swapsCompleted : Int
deriving DecidableEq, Repr

/-- Item document, restricted to the fields the settlement engine reads or
writes. -/
structure Item where
  id : Nat
  uploader : Nat
  points : Int
  status : ItemStatus
  swapRequests : List Nat
deriving DecidableEq, Repr

/-- SwapRequest document, restricted to the fields the settlement engine
reads or writes. -/
structure SwapRequest where
  id : Nat
  item : Nat
  requester : Nat
  itemOwner : Nat
  swapType : SwapType
  status : SwapStatus
  offeredItem : Option Nat
  offeredPoints : Option Int
  pointsTransferred : Bool
  transferAmount : Option Int
  cancelledBy : Option Nat
  createdAt : Int
deriving DecidableEq, Repr

/-- Persistent store: the three mongoose collections, keyed by id. -/
structure DB where
  users : List User
  items : List Item
  swaps : List SwapRequest
deriving DecidableEq, Repr

/-- User.findById. -/
def findUser (db : DB) (id : Nat) : Option User :=
  db.users.find? (fun u => u.id == id)

/-- Item.findById. -/
def findItem (db : DB) (id : Nat) : Option Item :=
  db.items.find? (fun i => i.id == id)

/-- SwapRequest.findById. -/
def findSwap (db : DB) (id : Nat) : Option SwapRequest :=
  db.swaps.find? (fun s => s.id == id)

/-- Persist an already-validated user document (replace by id). -/
def saveUser (db : DB) (u : User) : DB :=
  { db with users := db.users.map (fun v => if v.id == u.id then u else v) }

/-- Persist an already-validated item document (replace by id). -/
def saveItem (db : DB) (it : Item) : DB :=
  { db with items := db.items.map (fun v => if v.id == it.id then it else v) }

/-- Persist an already-validated swap-request document (replace by id). -/
def saveSwap (db : DB) (sr : SwapRequest) : DB :=
  { db with swaps := db.swaps.map (fun v => if v.id == sr.id then sr else v) }

/-- User document save: mongoose runs the schema validators; the only
validator on a modelled field is `min: [0, 'Points cannot be negative']`
on `points`. -/
def User.save (u : User) : Except SwapError User :=
  if u.points < 0 then .error .userValidation else .ok u

/-- User method addPoints: `this.points += points;
this.stats.totalPointsEarned += points; return await this.save();`
No sign check of its own — validation happens only at save. -/
def User.addPoints (u : User) (p : Int) : Except SwapError User :=
  User.save { u with
    points := u.points + p
    totalPointsEarned := u.totalPointsEarned + p }

/-- User method spendPoints: throws 'Insufficient points' when
`this.points < points`, otherwise decrements the balance and increments
`totalPointsSpent`, then saves. -/
def User.spendPoints (u : User) (p : Int) : Except SwapError User :=
  if u.points < p then .error .insufficientFunds
  else User.save { u with
    points := u.points - p
    totalPointsSpent := u.totalPointsSpent + p }

/-- User method incrementSwapsCompleted. -/
def User.incrementSwapsCompleted (u : User) : Except SwapError User :=
  User.save { u with swapsCompleted := u.swapsCompleted + 1 }

/-- Item document save: the modelled schema validators are
`min: [1, ...], max: [1000, ...]` on `points`. -/
def Item.save (it : Item) : Except SwapError Item :=
  if it.points < 1 ∨ 1000 < it.points then .error .itemValidation else .ok it

/-- Item method markAsSwapped: `this.status = 'swapped';
return await this.save();` — no check of the current status. -/
def Item.markAsSwapped (it : Item) : Except SwapError Item :=
  Item.save { it with status := .swapped }

/-- SwapRequest document save: runs the `pre('save')` hook — either
`offeredItem` or a non-zero `offeredPoints` must be present
(`!this.offeredPoints` is true for undefined and 0), and
`requester ≠ itemOwner` — then the schema validators `min: 0` on
`offeredPoints` and `transferAmount`. -/
def SwapRequest.save (sr : SwapRequest) : Except SwapError SwapRequest :=
  if sr.offeredItem = none ∧ (sr.offeredPoints = none ∨ sr.offeredPoints = some 0) then
    .error .invalidSwapRequest
  else if sr.requester = sr.itemOwner then
    .error .selfSwap
  else if sr.offeredPoints.any (fun p => decide (p < 0)) then
    .error .swapValidation
  else if sr.transferAmount.any (fun t => decide (t < 0)) then
    .error .swapValidation
  else .ok sr

/-- Virtual isExpired: pending and `createdAt` older than seven days
(604800000 ms) before `now`. -/
def SwapRequest.isExpired (sr : SwapRequest) (now : Int) : Bool :=
  sr.status == .pending && decide (sr.createdAt < now - 604800000)

/-- Virtual canBeCancelled: pending and not expired. -/
def SwapRequest.canBeCancelled (sr : SwapRequest) (now : Int) : Bool :=
  sr.status == .pending && !(sr.isExpired now)

/-- SwapRequest method accept: sets status to accepted; for a points swap
with `offeredPoints > 0` it loads both users, re-checks
`requester.points >= offeredPoints` (throwing 'Insufficient points for
swap' otherwise), debits the requester (their save persists first),
credits the itemOwner (their save persists next), records
`pointsTransferred = true` and `transferAmount = offeredPoints`, then
saves the request itself. -/
def SwapRequest.accept (db : DB) (sr : SwapRequest) : Except (SwapError × DB) DB :=
  let sr1 := { sr with status := SwapStatus.accepted }
  if sr.swapType = SwapType.points ∧ 0 < sr.offeredPoints.getD 0 then
    match findUser db sr.requester with
    | none => .error (.notFound, db)
    | some requester =>
      match findUser db sr.itemOwner with
      | none => .error (.notFound, db)
      | some owner =>
        if sr.offeredPoints.getD 0 ≤ requester.points then
          match requester.spendPoints (sr.offeredPoints.getD 0) with
          | .error e => .error (e, db)
          | .ok requester2 =>
            let db1 := saveUser db requester2
            match owner.addPoints (sr.offeredPoints.getD 0) with
            | .error e => .error (e, db1)
            | .ok owner2 =>
              let db2 := saveUser db1 owner2
              let sr2 := { sr1 with
                pointsTransferred := true
                transferAmount := some (sr.offeredPoints.getD 0) }
              match sr2.save with
              | .error e => .error (e, db2)
              | .ok sr3 => .ok (saveSwap db2 sr3)
        else .error (.insufficientFunds, db)
  else
    match sr1.save with
    | .error e => .error (e, db)
    | .ok sr2 => .ok (saveSwap db sr2)

/-- SwapRequest method reject: sets status to rejected and saves. -/
def SwapRequest.reject (db : DB) (sr : SwapRequest) : Except (SwapError × DB) DB :=
  let sr1 := { sr with status := SwapStatus.rejected }
  match sr1.save with
  | .error e => .error (e, db)
  | .ok sr2 => .ok (saveSwap db sr2)

/-- SwapRequest method complete: sets status to completed, increments
`swapsCompleted` for both parties, marks the primary item (and the
offered item, when present) swapped, then saves the request. -/
def SwapRequest.complete (db : DB) (sr : SwapRequest) : Except (SwapError × DB) DB :=
  let sr1 := { sr with status := SwapStatus.completed }
  match findUser db sr.requester with
  | none => .error (.notFound, db)
  | some requester =>
    match findUser db sr.itemOwner with
    | none => .error (.notFound, db)
    | some owner =>
      match requester.incrementSwapsCompleted with
      | .error e => .error (e, db)
      | .ok requester2 =>
        let db1 := saveUser db requester2
        match owner.incrementSwapsCompleted with
        | .error e => .error (e, db1)
        | .ok owner2 =>
          let db2 := saveUser db1 owner2
          match findItem db2 sr.item with
          | none => .error (.notFound, db2)
          | some item =>
            match item.markAsSwapped with
            | .error e => .error (e, db2)
            | .ok item2 =>
              let db3 := saveItem db2 item2
              match sr.offeredItem with
              | some oid =>
                match findItem db3 oid with
                | none => .error (.notFound, db3)
                | some oi =>
                  match oi.markAsSwapped with
                  | .error e => .error (e, db3)
                  | .ok oi2 =>
                    let db4 := saveItem db3 oi2
                    match sr1.save with
                    | .error e => .error (e, db4)
                    | .ok sr2 => .ok (saveSwap db4 sr2)
              | none =>
                match sr1.save with
                | .error e => .error (e, db3)
                | .ok sr2 => .ok (saveSwap db3 sr2)

/-- SwapRequest method cancel: sets status to cancelled and records
`cancelledBy`; when `pointsTransferred` and `transferAmount > 0` it
reverses the transfer — credit `transferAmount` back to the requester,
debit it from the itemOwner — and resets `pointsTransferred`; then saves
the request. -/
def SwapRequest.cancel (db : DB) (sr : SwapRequest) (userId : Nat) :
    Except (SwapError × DB) DB :=
  let sr1 := { sr with
    status := SwapStatus.cancelled
    cancelledBy := some userId }
  if sr.pointsTransferred ∧ 0 < sr.transferAmount.getD 0 then
    match findUser db sr.requester with
    | none => .error (.notFound, db)
    | some requester =>
      match findUser db sr.itemOwner with
      | none => .error (.notFound, db)
      | some owner =>
        match requester.addPoints (sr.transferAmount.getD 0) with
        | .error e => .error (e, db)
        | .ok requester2 =>
          let db1 := saveUser db requester2
          match owner.spendPoints (sr.transferAmount.getD 0) with
          | .error e => .error (e, db1)
          | .ok owner2 =>
            let db2 := saveUser db1 owner2
            let sr2 := { sr1 with pointsTransferred := false }
            match sr2.save with
            | .error e => .error (e, db2)
            | .ok sr3 => .ok (saveSwap db2 sr3)
  else
    match sr1.save with
    | .error e => .error (e, db)
    | .ok sr2 => .ok (saveSwap db sr2)

/-- Input of POST /api/swaps, after JSON body parsing (the informational
`message` field is omitted). -/
structure CreateInput where
  itemId : Nat
  swapType : SwapType
  offeredItemId : Option Nat
  offeredPoints : Option Int
deriving DecidableEq, Repr

/-- Tail of the create route after the offered-item validation: the
duplicate-pending-request guard, `SwapRequest.create` (which runs the save
hook and validators), then pushing the new id onto `item.swapRequests` and
saving the item. -/
def createSwapRequestCore (db : DB) (caller : User) (inp : CreateInput)
    (item : Item) (newId : Nat) (now : Int) : Except (SwapError × DB) DB :=
  if db.swaps.any (fun s =>
      decide (s.item = inp.itemId ∧ s.requester = caller.id ∧
        s.status = SwapStatus.pending)) then
    .error (.duplicateRequest, db)
  else
    let sr : SwapRequest := {
      id := newId
      item := inp.itemId
      requester := caller.id
      itemOwner := item.uploader
      swapType := inp.swapType
      status := SwapStatus.pending
      offeredItem := inp.offeredItemId
      offeredPoints := inp.offeredPoints
      pointsTransferred := false
      transferAmount := none
      cancelledBy := none
      createdAt := now }
    match sr.save with
    | .error e => .error (e, db)
    | .ok sr2 =>
      let db1 := { db with swaps := db.swaps ++ [sr2] }
      let item2 := { item with swapRequests := item.swapRequests ++ [sr.id] }
      match item2.save with
      | .error e => .error (e, db1)
      | .ok item3 => .ok (saveItem db1 item3)

/-- Route POST /api/swaps (createSwapRequest).  In order: the
express-validator layer (`offeredPoints` optional but `isInt({ min: 1 })`
when present), item lookup, availability check, self-swap check, swap-type
requirements, requester balance check for points swaps, offered-item
validation, then `createSwapRequestCore`.  The middleware-loaded `req.user`
is passed as `caller`; `newId` is the fresh ObjectId mongoose generates. -/
def createSwapRequest (db : DB) (caller : User) (inp : CreateInput)
    (newId : Nat) (now : Int) : Except (SwapError × DB) DB :=
  if inp.offeredPoints.any (fun p => decide (p < 1)) then
    .error (.validationErrors, db)
  else
    match findItem db inp.itemId with
    | none => .error (.notFound, db)
    | some item =>
      if item.status ≠ ItemStatus.available then .error (.itemNotAvailable, db)
      else if item.uploader = caller.id then .error (.selfSwap, db)
      else if inp.swapType = SwapType.direct ∧ inp.offeredItemId = none then
        .error (.directNeedsItem, db)
      else if inp.swapType = SwapType.points ∧ inp.offeredPoints.getD 0 ≤ 0 then
        .error (.pointsNeedsPoints, db)
      else if inp.swapType = SwapType.points ∧ caller.points < inp.offeredPoints.getD 0 then
        .error (.insufficientFunds, db)
      else
        match inp.offeredItemId with
        | some oid =>
          (match findItem db oid with
          | none => .error (.notFound, db)
          | some oi =>
            if oi.uploader ≠ caller.id then .error (.offeredItemNotOwned, db)
            else if oi.status ≠ ItemStatus.available then
              .error (.offeredItemNotAvailable, db)
            else createSwapRequestCore db caller inp item newId now)
        | none => createSwapRequestCore db caller inp item newId now

/-- Tail of the accept route: when the request carried an `offeredItem`
(direct swap), load it and mark it swapped too. -/
def acceptOfferedItemStep (db : DB) (sr : SwapRequest) : Except (SwapError × DB) DB :=
  match sr.offeredItem with
  | none => .ok db
  | some oid =>
    match findItem db oid with
    | none => .error (.notFound, db)
    | some oi =>
      match oi.markAsSwapped with
      | .error e => .error (e, db)
      | .ok oi2 => .ok (saveItem db oi2)

/-- Route PUT /api/swaps/:id/accept (acceptSwapRequest).  In order: load,
authorize (caller must be the itemOwner), require status pending, run the
model's accept method, mark the requested item swapped, award the item's
own `points` valuation to its uploader (`if (uploader && item.points)`),
then mark the offered item swapped when present. -/
def acceptSwapRequest (db : DB) (callerId : Nat) (swapId : Nat) :
    Except (SwapError × DB) DB :=
  match findSwap db swapId with
  | none => .error (.notFound, db)
  | some sr =>
    if sr.itemOwner ≠ callerId then .error (.notAuthorized, db)
    else if sr.status ≠ SwapStatus.pending then .error (.invalidTransition, db)
    else
      match SwapRequest.accept db sr with
      | .error e => .error e
      | .ok db1 =>
        match findItem db1 sr.item with
        | none => .error (.notFound, db1)
        | some item =>
          match item.markAsSwapped with
          | .error e => .error (e, db1)
          | .ok item2 =>
            let db2 := saveItem db1 item2
            match findUser db2 item.uploader with
            | none => acceptOfferedItemStep db2 sr
            | some uploader =>
              if item.points ≠ 0 then
                match uploader.addPoints item.points with
                | .error e => .error (e, db2)
                | .ok uploader2 => acceptOfferedItemStep (saveUser db2 uploader2) sr
              else acceptOfferedItemStep db2 sr

/-- Route PUT /api/swaps/:id/reject (rejectSwapRequest): load, authorize
(itemOwner), require status pending, run the reject method. -/
def rejectSwapRequest (db : DB) (callerId : Nat) (swapId : Nat) :
    Except (SwapError × DB) DB :=
  match findSwap db swapId with
  | none => .error (.notFound, db)
  | some sr =>
    if sr.itemOwner ≠ callerId then .error (.notAuthorized, db)
    else if sr.status ≠ SwapStatus.pending then .error (.invalidTransition, db)
    else SwapRequest.reject db sr

/-- Route PUT /api/swaps/:id/complete (completeSwapRequest): load,
authorize (either party), require status accepted, run the complete
method. -/
def completeSwapRequest (db : DB) (callerId : Nat) (swapId : Nat) :
    Except (SwapError × DB) DB :=
  match findSwap db swapId with
  | none => .error (.notFound, db)
  | some sr =>
    if sr.requester ≠ callerId ∧ sr.itemOwner ≠ callerId then
      .error (.notAuthorized, db)
    else if sr.status ≠ SwapStatus.accepted then .error (.invalidTransition, db)
    else SwapRequest.complete db sr

/-- Route PUT /api/swaps/:id/cancel (cancelSwapRequest): load, authorize
(requester), require `canBeCancelled` (status-precondition failure, the
InvalidTransition kind), run the cancel method. -/
def cancelSwapRequest (db : DB) (callerId : Nat) (swapId : Nat) (now : Int) :
    Except (SwapError × DB) DB :=
  match findSwap db swapId with
  | none => .error (.notFound, db)
  | some sr =>
    if sr.requester ≠ callerId then .error (.notAuthorized, db)
    else if !(sr.canBeCancelled now) then .error (.invalidTransition, db)
    else SwapRequest.cancel db sr callerId

/-- Scenario composition used by the ledger-conservation claim: the public
accept route followed by the model-level cancel method applied to the
accepted request (the route-level cancel guard would refuse an accepted
request, so the reversal path is exercised on the method itself, exactly
as the source defines it). -/
def acceptThenCancel (db : DB) (ownerId : Nat) (swapId : Nat)
    (cancellerId : Nat) : Except (SwapError × DB) DB :=
  match acceptSwapRequest db ownerId swapId with
  | .error e => .error e
  | .ok db1 =>
    match findSwap db1 swapId with
    | none => .error (.notFound, db1)
    | some sr2 => SwapRequest.cancel db1 sr2 cancellerId

/-- Claim C1: for a pending points swap request, when the itemOwner accepts
and the requester's balance covers `offeredPoints`, the accept route debits
`offeredPoints` from the requester, credits `offeredPoints` plus the item's
own points valuation (the listing-completion bonus) to the itemOwner who
uploaded the item, marks the item swapped, and records status accepted,
`pointsTransferred = true`, `transferAmount = offeredPoints`. -/
theorem accept_points_swap_settles
    (xid yid iid sid : Nat) (reqs : List Nat)
    (bX eX sX cX bY eY sY cY v p t : Int)
    (hne : xid ≠ yid)
    (hbY : 0 ≤ bY)
    (hp : 1 ≤ p) (hfunds : p ≤ bX)
    (hv : 1 ≤ v) (hv2 : v ≤ 1000) :
    acceptSwapRequest
      ⟨[⟨xid, bX, eX, sX, cX⟩, ⟨yid, bY, eY, sY, cY⟩],
       [⟨iid, yid, v, .available, reqs⟩],
       [⟨sid, iid, xid, yid, .points, .pending, none, some p, false, none, none, t⟩]⟩
      yid sid
    = .ok
      ⟨[⟨xid, bX - p, eX, sX + p, cX⟩, ⟨yid, bY + p + v, eY + p + v, sY, cY⟩],
       [⟨iid, yid, v, .swapped, reqs⟩],
       [⟨sid, iid, xid, yid, .points, .accepted, none, some p, true, some p, none, t⟩]⟩ := by
  have hxy : (xid == yid) = false := beq_eq_false_iff_ne.mpr hne
  have hyx : (yid == xid) = false := beq_eq_false_iff_ne.mpr (Ne.symm hne)
  have hne2 : ¬ (yid = xid) := Ne.symm hne
  have hp0 : 0 < p := by omega
  have h1 : ¬ (bX < p) := by omega
  have h2 : ¬ (bX - p < 0) := by omega
  have h3 : ¬ (bY + p < 0) := by omega
  have h4 : ¬ (p < 0) := by omega
  have h5 : p ≠ 0 := by omega
  have h6 : ¬ (v < 1 ∨ 1000 < v) := by omega
  have h7 : ¬ (v = 0) := by omega
  have h8 : ¬ (bY + p + v < 0) := by omega
  simp [acceptSwapRequest, findSwap, findUser, findItem, SwapRequest.accept,
    User.spendPoints, User.addPoints, User.save, Item.markAsSwapped, Item.save,
    SwapRequest.save, saveUser, saveItem, saveSwap, acceptOfferedItemStep,
    List.find?, hxy, hyx, hne, hne2, hp0, hfunds, h1, h2, h3, h4, h5, h6, h7, h8]

/-- Claim C1 witness: Scenario A — requester balance 50, offeredPoints 20,
item points 20: requester ends at 30, owner gains 40, item swapped,
request accepted with the transfer recorded. -/
theorem accept_points_swap_settles_witness :
    acceptSwapRequest
      ⟨[⟨1, 50, 0, 0, 0⟩, ⟨2, 10, 0, 0, 0⟩],
       [⟨10, 2, 20, .available, [100]⟩],
       [⟨100, 10, 1, 2, .points, .pending, none, some 20, false, none, none, 0⟩]⟩
      2 100
    = .ok
      ⟨[⟨1, 30, 0, 20, 0⟩, ⟨2, 50, 40, 0, 0⟩],
       [⟨10, 2, 20, .swapped, [100]⟩],
       [⟨100, 10, 1, 2, .points, .accepted, none, some 20, true, some 20, none, 0⟩]⟩ := by
  simpa using accept_points_swap_settles 1 2 10 100 [100] 50 0 0 0 10 0 0 0 20 20 0
    (by decide) (by decide) (by decide) (by decide) (by decide) (by decide)

/-- Claim C2: for a pending points swap request whose requester balance has
fallen below `offeredPoints`, accept fails with InsufficientFunds and
persists nothing: the store (request still pending, balances untouched,
item still available) is returned exactly as it was. -/
theorem accept_insufficient_funds_rejects
    (xid yid iid sid : Nat) (reqs : List Nat)
    (bX eX sX cX bY eY sY cY v p t : Int)
    (hne : xid ≠ yid)
    (hp : 1 ≤ p) (hfunds : bX < p) :
    acceptSwapRequest
      ⟨[⟨xid, bX, eX, sX, cX⟩, ⟨yid, bY, eY, sY, cY⟩],
       [⟨iid, yid, v, .available, reqs⟩],
       [⟨sid, iid, xid, yid, .points, .pending, none, some p, false, none, none, t⟩]⟩
      yid sid
    = .error (.insufficientFunds,
      ⟨[⟨xid, bX, eX, sX, cX⟩, ⟨yid, bY, eY, sY, cY⟩],
       [⟨iid, yid, v, .available, reqs⟩],
       [⟨sid, iid, xid, yid, .points, .pending, none, some p, false, none, none, t⟩]⟩) := by
  have hxy : (xid == yid) = false := beq_eq_false_iff_ne.mpr hne
  have hnotle : ¬ (p ≤ bX) := not_le.mpr hfunds
  have hp0 : 0 < p := by omega
  simp [acceptSwapRequest, findSwap, findUser, SwapRequest.accept,
    List.find?, hxy, hnotle, hp0]

/-- Claim C2 witness: Scenario B — requester balance 10 against
offeredPoints 20: accept returns InsufficientFunds and the store is
unchanged. -/
theorem accept_insufficient_funds_rejects_witness :
    acceptSwapRequest
      ⟨[⟨1, 10, 0, 0, 0⟩, ⟨2, 10, 0, 0, 0⟩],
       [⟨10, 2, 20, .available, [100]⟩],
       [⟨100, 10, 1, 2, .points, .pending, none, some 20, false, none, none, 0⟩]⟩
      2 100
    = .error (.insufficientFunds,
      ⟨[⟨1, 10, 0, 0, 0⟩, ⟨2, 10, 0, 0, 0⟩],
       [⟨10, 2, 20, .available, [100]⟩],
       [⟨100, 10, 1, 2, .points, .pending, none, some 20, false, none, none, 0⟩]⟩) := by
  simpa using accept_insufficient_funds_rejects 1 2 10 100 [100] 10 0 0 0 10 0 0 0 20 20 0
    (by decide) (by decide) (by decide)

/-- Claim C3 counterexample: accepting a direct swap does change a points
balance — the itemOwner's balance moves from 10 to 30 (the listing bonus),
refuting the claim that no user's points balance changes. -/
theorem accept_direct_swap_changes_owner_balance_cex :
    (acceptSwapRequest
      ⟨[⟨1, 50, 0, 0, 0⟩, ⟨2, 10, 0, 0, 0⟩],
       [⟨10, 2, 20, .available, [100]⟩, ⟨11, 1, 5, .available, []⟩],
       [⟨100, 10, 1, 2, .direct, .pending, some 11, none, false, none, none, 0⟩]⟩
      2 100).isOk = true ∧
    ¬ ((acceptSwapRequest
      ⟨[⟨1, 50, 0, 0, 0⟩, ⟨2, 10, 0, 0, 0⟩],
       [⟨10, 2, 20, .available, [100]⟩, ⟨11, 1, 5, .available, []⟩],
       [⟨100, 10, 1, 2, .direct, .pending, some 11, none, false, none, none, 0⟩]⟩
      2 100).toOption.bind (fun d => (findUser d 2).map User.points) = some 10) := by
  decide

/-- Claim C3 as amended: when the itemOwner accepts a pending direct swap,
both the requested item and the offered item become swapped and the
requester's balance is unchanged, but the itemOwner's balance increases by
the requested item's points valuation (the listing-completion bonus paid by
the accept route on every accept). -/
theorem accept_direct_swap_marks_items_pays_listing_bonus
    (xid yid iid jid sid : Nat) (reqs reqsJ : List Nat)
    (bX eX sX cX bY eY sY cY v w t : Int)
    (hne : xid ≠ yid) (hij : iid ≠ jid)
    (hbY : 0 ≤ bY)
    (hv : 1 ≤ v) (hv2 : v ≤ 1000)
    (hw : 1 ≤ w) (hw2 : w ≤ 1000) :
    acceptSwapRequest
      ⟨[⟨xid, bX, eX, sX, cX⟩, ⟨yid, bY, eY, sY, cY⟩],
       [⟨iid, yid, v, .available, reqs⟩, ⟨jid, xid, w, .available, reqsJ⟩],
       [⟨sid, iid, xid, yid, .direct, .pending, some jid, none, false, none, none, t⟩]⟩
      yid sid
    = .ok
      ⟨[⟨xid, bX, eX, sX, cX⟩, ⟨yid, bY + v, eY + v, sY, cY⟩],
       [⟨iid, yid, v, .swapped, reqs⟩, ⟨jid, xid, w, .swapped, reqsJ⟩],
       [⟨sid, iid, xid, yid, .direct, .accepted, some jid, none, false, none, none, t⟩]⟩ := by
  have hxy : (xid == yid) = false := beq_eq_false_iff_ne.mpr hne
  have hyx : (yid == xid) = false := beq_eq_false_iff_ne.mpr (Ne.symm hne)
  have hne2 : ¬ (yid = xid) := Ne.symm hne
  have hijb : (iid == jid) = false := beq_eq_false_iff_ne.mpr hij
  have hjib : (jid == iid) = false := beq_eq_false_iff_ne.mpr (Ne.symm hij)
  have hij2 : ¬ (jid = iid) := Ne.symm hij
  have h6 : ¬ (v < 1 ∨ 1000 < v) := by omega
  have h6w : ¬ (w < 1 ∨ 1000 < w) := by omega
  have h7 : ¬ (v = 0) := by omega
  have h8 : ¬ (bY + v < 0) := by omega
  simp [acceptSwapRequest, findSwap, findUser, findItem, SwapRequest.accept,
    User.addPoints, User.save, Item.markAsSwapped, Item.save,
    SwapRequest.save, saveUser, saveItem, saveSwap, acceptOfferedItemStep,
    List.find?, hxy, hyx, hne, hne2, hij, hij2, hijb, hjib, h6, h6w, h7, h8]

/-- Claim C3 witness (amended form): Scenario C with owner balance 10 and
item valuation 20 — both items end swapped and the owner ends at 30. -/
theorem accept_direct_swap_marks_items_pays_listing_bonus_witness :
    acceptSwapRequest
      ⟨[⟨1, 50, 0, 0, 0⟩, ⟨2, 10, 0, 0, 0⟩],
       [⟨10, 2, 20, .available, [100]⟩, ⟨11, 1, 5, .available, []⟩],
       [⟨100, 10, 1, 2, .direct, .pending, some 11, none, false, none, none, 0⟩]⟩
      2 100
    = .ok
      ⟨[⟨1, 50, 0, 0, 0⟩, ⟨2, 30, 20, 0, 0⟩],
       [⟨10, 2, 20, .swapped, [100]⟩, ⟨11, 1, 5, .swapped, []⟩],
       [⟨100, 10, 1, 2, .direct, .accepted, some 11, none, false, none, none, 0⟩]⟩ := by
  simpa using accept_direct_swap_marks_items_pays_listing_bonus 1 2 10 11 100 [100] []
    50 0 0 0 10 0 0 0 20 5 0
    (by decide) (by decide) (by decide) (by decide) (by decide) (by decide) (by decide)

/-- Claim C4 counterexample: markAsSwapped applied to an item whose status
is removed (not available) succeeds and overwrites the status with swapped,
refuting the claim that it fails with InvalidItemState and leaves the
status unchanged. -/
theorem markAsSwapped_nonavailable_succeeds_cex :
    Item.markAsSwapped ⟨10, 2, 20, .removed, []⟩ = .ok ⟨10, 2, 20, .swapped, []⟩ := by
  rfl

/-- Claim C4 as amended: markAsSwapped performs no status check at all —
for every item (whose points valuation passes the schema range validators
run at save), it succeeds and sets the status to swapped regardless of the
current status. -/
theorem markAsSwapped_succeeds_from_any_status
    (it : Item) (hv : 1 ≤ it.points) (hv2 : it.points ≤ 1000) :
    Item.markAsSwapped it = .ok { it with status := .swapped } := by
  have h : ¬ (it.points < 1 ∨ 1000 < it.points) := by omega
  simp [Item.markAsSwapped, Item.save, h]

/-- Claim C4 witness (amended form): a pending item is marked swapped. -/
theorem markAsSwapped_succeeds_from_any_status_witness :
    Item.markAsSwapped ⟨7, 3, 50, .pending, []⟩ = .ok ⟨7, 3, 50, .swapped, []⟩ := by
  simpa using markAsSwapped_succeeds_from_any_status ⟨7, 3, 50, .pending, []⟩
    (by decide) (by decide)

/-- Claim C5 counterexample: accepting a points swap and then running the
cancel reversal leaves the itemOwner at 30, not at the pre-accept value 10
— the listing-completion bonus paid at accept is never reversed, refuting
the claim that both balances return exactly to their pre-accept values. -/
theorem accept_then_cancel_owner_balance_not_restored_cex :
    (acceptThenCancel
      ⟨[⟨1, 50, 0, 0, 0⟩, ⟨2, 10, 0, 0, 0⟩],
       [⟨10, 2, 20, .available, [100]⟩],
       [⟨100, 10, 1, 2, .points, .pending, none, some 20, false, none, none, 0⟩]⟩
      2 100 1).isOk = true ∧
    ¬ ((acceptThenCancel
      ⟨[⟨1, 50, 0, 0, 0⟩, ⟨2, 10, 0, 0, 0⟩],
       [⟨10, 2, 20, .available, [100]⟩],
       [⟨100, 10, 1, 2, .points, .pending, none, some 20, false, none, none, 0⟩]⟩
      2 100 1).toOption.bind (fun d => (findUser d 2).map User.points) = some 10) := by
  decide

/-- Claim C5 as amended: for an accepted-then-cancelled points swap, the
cancel reversal restores the requester's balance exactly, but the
itemOwner ends at the pre-accept balance plus the item's points valuation:
the reversal undoes only the recorded transferAmount, never the
listing-completion bonus paid by the accept route. -/
theorem accept_then_cancel_restores_requester_owner_keeps_bonus
    (xid yid iid sid : Nat) (reqs : List Nat)
    (bX eX sX cX bY eY sY cY v p t : Int)
    (hne : xid ≠ yid)
    (hbY : 0 ≤ bY)
    (hp : 1 ≤ p) (hfunds : p ≤ bX)
    (hv : 1 ≤ v) (hv2 : v ≤ 1000) :
    acceptThenCancel
      ⟨[⟨xid, bX, eX, sX, cX⟩, ⟨yid, bY, eY, sY, cY⟩],
       [⟨iid, yid, v, .available, reqs⟩],
       [⟨sid, iid, xid, yid, .points, .pending, none, some p, false, none, none, t⟩]⟩
      yid sid xid
    = .ok
      ⟨[⟨xid, bX, eX + p, sX + p, cX⟩, ⟨yid, bY + v, eY + p + v, sY + p, cY⟩],
       [⟨iid, yid, v, .swapped, reqs⟩],
       [⟨sid, iid, xid, yid, .points, .cancelled, none, some p, false, some p, some xid, t⟩]⟩ := by
  have hxy : (xid == yid) = false := beq_eq_false_iff_ne.mpr hne
  have hyx : (yid == xid) = false := beq_eq_false_iff_ne.mpr (Ne.symm hne)
  have hne2 : ¬ (yid = xid) := Ne.symm hne
  have hp0 : 0 < p := by omega
  have h1 : ¬ (bX < p) := by omega
  have h2 : ¬ (bX - p < 0) := by omega
  have h3 : ¬ (bY + p < 0) := by omega
  have h4 : ¬ (p < 0) := by omega
  have h5 : p ≠ 0 := by omega
  have h6 : ¬ (v < 1 ∨ 1000 < v) := by omega
  have h7 : ¬ (v = 0) := by omega
  have h8 : ¬ (bY + p + v < 0) := by omega
  have h9 : bX - p + p = bX := by ring
  have h10 : bY + p + v - p = bY + v := by ring
  have h11 : ¬ (bX - p + p < 0) := by omega
  have h12 : ¬ (bY + p + v < p) := by omega
  have h13 : ¬ (bY + p + v - p < 0) := by omega
  have h14 : ¬ (bX < 0) := by omega
  have h15 : ¬ (bY + v < 0) := by omega
  simp [acceptThenCancel, acceptSwapRequest, findSwap, findUser, findItem,
    SwapRequest.accept, SwapRequest.cancel,
    User.spendPoints, User.addPoints, User.save, Item.markAsSwapped, Item.save,
    SwapRequest.save, saveUser, saveItem, saveSwap, acceptOfferedItemStep,
    List.find?, hxy, hyx, hne, hne2, hp0, hfunds,
    h1, h2, h3, h4, h5, h6, h7, h8, h9, h10, h11, h12, h13, h14, h15]

/-- Claim C5 witness (amended form): Scenario A then cancel — the requester
returns to 50, the owner ends at 30 = 10 + 20 (bonus kept). -/
theorem accept_then_cancel_restores_requester_owner_keeps_bonus_witness :
    acceptThenCancel
      ⟨[⟨1, 50, 0, 0, 0⟩, ⟨2, 10, 0, 0, 0⟩],
       [⟨10, 2, 20, .available, [100]⟩],
       [⟨100, 10, 1, 2, .points, .pending, none, some 20, false, none, none, 0⟩]⟩
      2 100 1
    = .ok
      ⟨[⟨1, 50, 20, 20, 0⟩, ⟨2, 30, 40, 20, 0⟩],
       [⟨10, 2, 20, .swapped, [100]⟩],
       [⟨100, 10, 1, 2, .points, .cancelled, none, some 20, false, some 20, some 1, 0⟩]⟩ := by
  simpa using accept_then_cancel_restores_requester_owner_keeps_bonus
    1 2 10 100 [100] 50 0 0 0 10 0 0 0 20 20 0
    (by decide) (by decide) (by decide) (by decide) (by decide) (by decide)

/-- Claim C6: once a swap request's status is rejected, completed or
cancelled, each of the four lifecycle routes — accept, reject, complete,
cancel — fails with InvalidTransition (even for the authorized caller)
and returns the store untouched: the terminal state is never exited. -/
theorem terminal_status_operations_all_fail
    (us : List User) (its : List Item)
    (sid iid xid yid : Nat) (ty : SwapType) (st : SwapStatus)
    (oi cb : Option Nat) (op ta : Option Int) (ptr : Bool) (t now : Int)
    (hst : st = .rejected ∨ st = .completed ∨ st = .cancelled) :
    acceptSwapRequest ⟨us, its, [⟨sid, iid, xid, yid, ty, st, oi, op, ptr, ta, cb, t⟩]⟩ yid sid
      = .error (.invalidTransition, ⟨us, its, [⟨sid, iid, xid, yid, ty, st, oi, op, ptr, ta, cb, t⟩]⟩) ∧
    rejectSwapRequest ⟨us, its, [⟨sid, iid, xid, yid, ty, st, oi, op, ptr, ta, cb, t⟩]⟩ yid sid
      = .error (.invalidTransition, ⟨us, its, [⟨sid, iid, xid, yid, ty, st, oi, op, ptr, ta, cb, t⟩]⟩) ∧
    completeSwapRequest ⟨us, its, [⟨sid, iid, xid, yid, ty, st, oi, op, ptr, ta, cb, t⟩]⟩ xid sid
      = .error (.invalidTransition, ⟨us, its, [⟨sid, iid, xid, yid, ty, st, oi, op, ptr, ta, cb, t⟩]⟩) ∧
    cancelSwapRequest ⟨us, its, [⟨sid, iid, xid, yid, ty, st, oi, op, ptr, ta, cb, t⟩]⟩ xid sid now
      = .error (.invalidTransition, ⟨us, its, [⟨sid, iid, xid, yid, ty, st, oi, op, ptr, ta, cb, t⟩]⟩) := by
  rcases hst with h | h | h <;> subst h <;>
    exact ⟨by simp [acceptSwapRequest, findSwap, List.find?],
           by simp [rejectSwapRequest, findSwap, List.find?],
           by simp [completeSwapRequest, findSwap, List.find?],
           by simp [cancelSwapRequest, findSwap, List.find?,
             SwapRequest.canBeCancelled, SwapRequest.isExpired]⟩

/-- Claim C6 witness: a rejected points request — all four lifecycle routes
return InvalidTransition with the store unchanged. -/
theorem terminal_status_operations_all_fail_witness :
    acceptSwapRequest ⟨[], [], [⟨100, 10, 1, 2, .points, .rejected, none, some 20, false, none, none, 0⟩]⟩ 2 100
      = .error (.invalidTransition, ⟨[], [], [⟨100, 10, 1, 2, .points, .rejected, none, some 20, false, none, none, 0⟩]⟩) ∧
    rejectSwapRequest ⟨[], [], [⟨100, 10, 1, 2, .points, .rejected, none, some 20, false, none, none, 0⟩]⟩ 2 100
      = .error (.invalidTransition, ⟨[], [], [⟨100, 10, 1, 2, .points, .rejected, none, some 20, false, none, none, 0⟩]⟩) ∧
    completeSwapRequest ⟨[], [], [⟨100, 10, 1, 2, .points, .rejected, none, some 20, false, none, none, 0⟩]⟩ 1 100
      = .error (.invalidTransition, ⟨[], [], [⟨100, 10, 1, 2, .points, .rejected, none, some 20, false, none, none, 0⟩]⟩) ∧
    cancelSwapRequest ⟨[], [], [⟨100, 10, 1, 2, .points, .rejected, none, some 20, false, none, none, 0⟩]⟩ 1 100 0
      = .error (.invalidTransition, ⟨[], [], [⟨100, 10, 1, 2, .points, .rejected, none, some 20, false, none, none, 0⟩]⟩) := by
  simpa using terminal_status_operations_all_fail [] [] 100 10 1 2 .points .rejected
    none none (some 20) none false 0 0 (Or.inl rfl)

/-- Claim C7: the ledger debit spendPoints fails with InsufficientFunds
exactly when the balance is below the amount (persisting nothing in that
case), and otherwise decreases the balance by the amount and increases
totalPointsSpent by the amount. -/
theorem spendPoints_spec (u : User) (p : Int) :
    u.spendPoints p =
      if u.points < p then .error .insufficientFunds
      else .ok { u with points := u.points - p, totalPointsSpent := u.totalPointsSpent + p } := by
  unfold User.spendPoints User.save
  split
  · rfl
  · rw [if_neg (by simp; omega)]

/-- Claim C8: createSwapRequest invoked by the item's own uploader (for an
input passing the express-validator layer) always fails with an error of
the InvalidSwapRequest family — the self-swap rejection when the item is
available, the item-not-available rejection otherwise — and the store is
returned unchanged: no SwapRequest record is ever created. -/
theorem create_self_swap_always_rejected
    (db : DB) (caller : User) (inp : CreateInput) (it : Item) (newId : Nat) (now : Int)
    (hfind : findItem db inp.itemId = some it)
    (hself : it.uploader = caller.id)
    (hvalid : ∀ q, inp.offeredPoints = some q → 1 ≤ q) :
    createSwapRequest db caller inp newId now
      = .error ((if it.status = ItemStatus.available then SwapError.selfSwap
                 else SwapError.itemNotAvailable), db) ∧
    SwapError.isInvalidSwapRequestKind
      (if it.status = ItemStatus.available then SwapError.selfSwap
       else SwapError.itemNotAvailable) = true := by
  have hval : inp.offeredPoints.any (fun p => decide (p < 1)) = false := by
    cases h : inp.offeredPoints with
    | none => rfl
    | some q =>
      have hq := hvalid q h
      simp [Option.any]
      omega
  refine ⟨?_, ?_⟩
  · unfold createSwapRequest
    rw [hval, hfind]
    by_cases hst : it.status = ItemStatus.available
    · simp [hst, hself]
    · simp [hst]
  · by_cases hst : it.status = ItemStatus.available <;>
      simp [hst, SwapError.isInvalidSwapRequestKind]

/-- Claim C8 witness: the uploader of an available item requesting their
own item is rejected with the self-swap error and no record is created. -/
theorem create_self_swap_always_rejected_witness :
    createSwapRequest
      ⟨[⟨1, 50, 0, 0, 0⟩, ⟨2, 10, 0, 0, 0⟩],
       [⟨10, 2, 20, .available, [100]⟩],
       [⟨100, 10, 1, 2, .points, .pending, none, some 20, false, none, none, 0⟩]⟩
      ⟨2, 10, 0, 0, 0⟩ ⟨10, .points, none, some 20⟩ 101 0
      = .error (.selfSwap,
        ⟨[⟨1, 50, 0, 0, 0⟩, ⟨2, 10, 0, 0, 0⟩],
         [⟨10, 2, 20, .available, [100]⟩],
         [⟨100, 10, 1, 2, .points, .pending, none, some 20, false, none, none, 0⟩]⟩) ∧
    SwapError.isInvalidSwapRequestKind .selfSwap = true := by
  simpa using create_self_swap_always_rejected
    ⟨[⟨1, 50, 0, 0, 0⟩, ⟨2, 10, 0, 0, 0⟩],
     [⟨10, 2, 20, .available, [100]⟩],
     [⟨100, 10, 1, 2, .points, .pending, none, some 20, false, none, none, 0⟩]⟩
    ⟨2, 10, 0, 0, 0⟩ ⟨10, .points, none, some 20⟩
    ⟨10, 2, 20, .available, [100]⟩ 101 0
    (by rfl) (by rfl) (by intro q h; injection h with h2; omega)

/-- Claim C9: the accept route validates only the request's own pending
status and the caller being the itemOwner, never the current status of the
requested item: for a pending points request whose item is no longer
available (any status other than available), accept still succeeds,
overwrites the item's status with swapped, transfers the points, and pays
the uploader the listing bonus again — even while another request for the
same item (here already accepted) sits in the store, so two distinct
pending requests for one item can both be accepted. -/
theorem accept_ignores_item_status
    (xid yid iid sid : Nat) (reqs : List Nat) (s : ItemStatus) (rs0 : SwapRequest)
    (bX eX sX cX bY eY sY cY v p t : Int)
    (hs : s ≠ .available)
    (h0 : rs0.id ≠ sid)
    (hne : xid ≠ yid)
    (hbY : 0 ≤ bY)
    (hp : 1 ≤ p) (hfunds : p ≤ bX)
    (hv : 1 ≤ v) (hv2 : v ≤ 1000) :
    acceptSwapRequest
      ⟨[⟨xid, bX, eX, sX, cX⟩, ⟨yid, bY, eY, sY, cY⟩],
       [⟨iid, yid, v, s, reqs⟩],
       [rs0, ⟨sid, iid, xid, yid, .points, .pending, none, some p, false, none, none, t⟩]⟩
      yid sid
    = .ok
      ⟨[⟨xid, bX - p, eX, sX + p, cX⟩, ⟨yid, bY + p + v, eY + p + v, sY, cY⟩],
       [⟨iid, yid, v, .swapped, reqs⟩],
       [rs0, ⟨sid, iid, xid, yid, .points, .accepted, none, some p, true, some p, none, t⟩]⟩ := by
  have hxy : (xid == yid) = false := beq_eq_false_iff_ne.mpr hne
  have hyx : (yid == xid) = false := beq_eq_false_iff_ne.mpr (Ne.symm hne)
  have hne2 : ¬ (yid = xid) := Ne.symm hne
  have h0b : (rs0.id == sid) = false := beq_eq_false_iff_ne.mpr h0
  have hp0 : 0 < p := by omega
  have h1 : ¬ (bX < p) := by omega
  have h2 : ¬ (bX - p < 0) := by omega
  have h3 : ¬ (bY + p < 0) := by omega
  have h4 : ¬ (p < 0) := by omega
  have h5 : p ≠ 0 := by omega
  have h6 : ¬ (v < 1 ∨ 1000 < v) := by omega
  have h7 : ¬ (v = 0) := by omega
  have h8 : ¬ (bY + p + v < 0) := by omega
  simp [acceptSwapRequest, findSwap, findUser, findItem, SwapRequest.accept,
    User.spendPoints, User.addPoints, User.save, Item.markAsSwapped, Item.save,
    SwapRequest.save, saveUser, saveItem, saveSwap, acceptOfferedItemStep,
    List.find?, hxy, hyx, hne, hne2, h0, h0b, Ne.symm h0, hp0, hfunds,
    h1, h2, h3, h4, h5, h6, h7, h8]

/-- Claim C9 witness: the item is already swapped (consumed by the already
accepted request 99) and the second, still pending request 100 is accepted
anyway, paying the uploader the 20-point listing bonus again. -/
theorem accept_ignores_item_status_witness :
    acceptSwapRequest
      ⟨[⟨1, 50, 0, 0, 0⟩, ⟨2, 10, 0, 0, 0⟩],
       [⟨10, 2, 20, .swapped, [99, 100]⟩],
       [⟨99, 10, 3, 2, .points, .accepted, none, some 20, true, some 20, none, 0⟩,
        ⟨100, 10, 1, 2, .points, .pending, none, some 20, false, none, none, 0⟩]⟩
      2 100
    = .ok
      ⟨[⟨1, 30, 0, 20, 0⟩, ⟨2, 50, 40, 0, 0⟩],
       [⟨10, 2, 20, .swapped, [99, 100]⟩],
       [⟨99, 10, 3, 2, .points, .accepted, none, some 20, true, some 20, none, 0⟩,
        ⟨100, 10, 1, 2, .points, .accepted, none, some 20, true, some 20, none, 0⟩]⟩ := by
  simpa using accept_ignores_item_status 1 2 10 100 [99, 100] .swapped
    ⟨99, 10, 3, 2, .points, .accepted, none, some 20, true, some 20, none, 0⟩
    50 0 0 0 10 0 0 0 20 20 0
    (by decide) (by decide) (by decide) (by decide) (by decide) (by decide)
    (by decide) (by decide)

/-- Claim C10 counterexample: addPoints with a negative amount whose
application would drive the balance below zero does not persist the
credit — the schema min-0 validation run at save rejects it — refuting the
claim that for every amount, zero and negative included, the amount is
added to the balance and totalPointsEarned. -/
theorem addPoints_negative_credit_validation_cex :
    User.addPoints ⟨1, 0, 0, 0, 0⟩ (-5) = .error .userValidation := by
  rfl

/-- Claim C10 as amended: addPoints performs no positivity check of its
own — for every amount, zero and negative included, whose application
leaves the balance non-negative, it adds the amount to both the balance
and totalPointsEarned; a negative credit thus decreases the balance
without going through spendPoints or its sufficiency guard, and only the
schema min-0 save validation blocks credits that would drive the balance
below zero. -/
theorem addPoints_unchecked_credit
    (u : User) (p : Int) (h : 0 ≤ u.points + p) :
    u.addPoints p = .ok { u with
      points := u.points + p
      totalPointsEarned := u.totalPointsEarned + p } := by
  unfold User.addPoints User.save
  rw [if_neg (by simp; omega)]

/-- Claim C10 witness (amended form): a credit of -20 against a balance of
50 persists, decreasing the balance to 30 and totalPointsEarned to -20,
without any sufficiency guard. -/
theorem addPoints_unchecked_credit_witness :
    User.addPoints ⟨1, 50, 0, 0, 0⟩ (-20) = .ok ⟨1, 30, -20, 0, 0⟩ := by
  simpa using addPoints_unchecked_credit ⟨1, 50, 0, 0, 0⟩ (-20) (by decide)

end Settlement
